import Mathlib

/-!
Verification development for the neurite/synapse simulation engine in
`src/neural.rs` of the Neuron-Modeler repository.

Modelling conventions of the shallow embedding:
* `f64` values are modelled as rational numbers `ℚ` (every constant in the
  source is a finite decimal, hence rational); `ℚ` division is total with
  `x / 0 = 0`.
* `Rc<RefCell<_>>` references held only for identity (synapse lists, the
  presynaptic source of a synapse) are abstracted to opaque `Nat` tokens or,
  for a synapse's presynaptic activity test (`output() > 0.0`), to the
  boolean result of that test, supplied as an argument to `process`.
* Mutation becomes explicit state passing: a Rust method `fn f(&mut self, …)
  -> T` becomes a Lean function returning `T × State` (or `Except` when the
  Rust code can panic, with the panic message as the error value).
* The fresh-UUID generators `NeuriteID::new`/`SynapticID::new` are modelled
  by an explicit `Nat` identifier argument.
-/

namespace NeuronModeler

/-- `ShortTermPlasticity` from src/neural.rs: facilitation/depression data
carried by every synapse. -/
structure ShortTermPlasticity where
  /-- Short-term facilitation scalar. -/
  f : ℚ
  /-- Short-term facilitation recovery time. -/
  tf : ℚ
  /-- Short-term depression scalar. -/
  d : ℚ
  /-- Short-term depression decay time. -/
  td : ℚ
  /-- Short-term plasticity increment/decrement value. -/
  p : ℚ
  /-- Short-term plasticity weight output. -/
  y : ℚ
  deriving DecidableEq, Repr

namespace ShortTermPlasticity

/-- `ShortTermPlasticity::new(tf, td, p)`. -/
def new (tf td p : ℚ) : ShortTermPlasticity :=
  { f := 1, tf := tf, d := 0, td := td, p := p, y := 0 }

/-- `ShortTermPlasticity::learn(spike)`: updates the state and returns the
new weight output `y` together with the updated state. -/
def learn (s : ShortTermPlasticity) (spike : Bool) : ℚ × ShortTermPlasticity :=
  let pd := s.d
  let s1 :=
    if spike then
      let f1 := s.f + s.p * (1 - s.f)
      { s with f := f1, d := s.d - f1 * s.d }
    else
      { s with f := s.f - s.f / s.tf, d := s.d + (1 - s.d) / s.td }
  let y1 := s1.f * pd
  (y1, { s1 with y := y1 })

/-- `n` successive calls of `learn(false)` (state after the calls). -/
def learnFalseIter (s : ShortTermPlasticity) : ℕ → ShortTermPlasticity
  | 0 => s
  | n + 1 => ((learnFalseIter s n).learn false).2

end ShortTermPlasticity

/-- `ShuntingInhibitorySynapse` from src/neural.rs (the presynaptic and
postsynaptic references and the synaptic id are abstracted away; the numeric
state is kept in full). -/
structure ShuntingInhibitorySynapse where
  /-- The input conductance of the synapse (total input). -/
  x : ℚ
  /-- Conductance decay time. -/
  tx : ℚ
  /-- The shunting scalar (-2..1). -/
  s : ℚ
  /-- Short-term plasticity data. -/
  stp : ShortTermPlasticity
  /-- Synaptic weight. -/
  w : ℚ
  /-- Maximal synaptic input conductance (maximal input). -/
  x_max : ℚ
  deriving DecidableEq, Repr

namespace ShuntingInhibitorySynapse

/-- `ShuntingInhibitorySynapse::new(x_pre, x_post, stp, s, tx, x_max)`.

The source stores the shunting scalar as `1.0.min(-2.0.max(s))`; by Rust
precedence a method call binds tighter than unary negation, so this parses
as `min 1 (-(max 2 s))`, which the embedding reproduces verbatim. -/
def new (stp : ShortTermPlasticity) (s tx x_max : ℚ) : ShuntingInhibitorySynapse :=
  { x := 0
    tx := tx
    s := min 1 (-(max 2 s))
    stp := stp
    w := 0
    x_max := x_max }

end ShuntingInhibitorySynapse

/-- `ExcitatorySynapse` from src/neural.rs (references and id abstracted,
numeric state kept in full). -/
structure ExcitatorySynapse where
  /-- The input conductance of the synapse (total input). -/
  x : ℚ
  /-- Conductance decay time. -/
  tx : ℚ
  /-- Short-term plasticity data. -/
  stp : ShortTermPlasticity
  /-- Synaptic weight. -/
  w : ℚ
  /-- Maximal synaptic input conductance (maximal input). -/
  x_max : ℚ
  deriving DecidableEq, Repr

namespace ExcitatorySynapse

/-- `ExcitatorySynapse::new(x_pre, x_post, stp, tx, x_max)`. -/
def new (stp : ShortTermPlasticity) (tx x_max : ℚ) : ExcitatorySynapse :=
  { x := 0, tx := tx, stp := stp, w := 0, x_max := x_max }

/-- `<ExcitatorySynapse as Synapse>::input()`. -/
def input (syn : ExcitatorySynapse) : ℚ := syn.x

/-- `<ExcitatorySynapse as Synapse>::process()`.  The three presynaptic
match arms all reduce to the boolean test `output > 0.0` on the source;
that boolean is the `presyn_active` argument. -/
def process (syn : ExcitatorySynapse) (presyn_active : Bool) : ℚ × ExcitatorySynapse :=
  let x1 := syn.x + -syn.x / syn.tx
  let stp1 := (syn.stp.learn presyn_active).2
  let x2 := x1 + syn.x_max * stp1.y * syn.w
  (x2, { syn with x := x2, stp := stp1 })

/-- Run `process` once per element of a list of presynaptic-activity
booleans (state after the calls). -/
def processSeq (syn : ExcitatorySynapse) : List Bool → ExcitatorySynapse
  | [] => syn
  | b :: bs => processSeq (syn.process b).2 bs

end ExcitatorySynapse

/-- `NeuriteType` from src/neural.rs. -/
inductive NeuriteType where
  | Soma
  | BasalProximal
  | BasalDistal
  | ApicalTrunk
  | ApicalTuft
  | Axon
  deriving DecidableEq, Repr

/-- `SpikeModel` from src/neural.rs. -/
inductive SpikeModel where
  | Accommodation
  | Bistability
  | ChatteringI
  | ChatteringII
  | ClassI
  | ClassII
  | DepolarizingAfterPotential
  | EntorhinalStellate
  | FastSpiking
  | FastSpikingBasket
  | HippocampalCA1PyramidalHighThresholdBursting
  | HippocampalCA1PyramidalLowThresholdBurstingI
  | HippocampalCA1PyramidalLowThresholdBurstingII
  | HippocampalCA1PyramidalNonBursting
  | InhibitionInducedBursting
  | InhibitionInducedSpiking
  | Integrator
  | IntrinsicallyBurstingPyramidal
  | IntrinsicallyBurstingPyramidalDendriteI
  | IntrinsicallyBurstingPyramidalDendriteII
  | IntrinsicallyBurstingPyramidalSomaI
  | IntrinsicallyBurstingPyramidalSomaII
  | LatentSpikingNonBasket
  | LatentSpikingNonBasketDendrite
  | LowThresholdSpiking
  | LowThresholdSpikingNonBasket
  | MixedMode
  | PhasicBursting
  | PhasicSpiking
  | ReboundBurst
  | ReboundSpike
  | RegularSpiking
  | RegularSpikingPyramidalI
  | RegularSpikingPyramidalII
  | RegularSpikingPyramidalL2L3Dendrite
  | RegularSpikingPyramidalL4Dendrite
  | RegularSpikingPyramidalL5L6Dendrite
  | RegularSpikingSpinyStellate
  | RegularSpikingSpinyStellateDendrite
  | ResonatorI
  | ResonatorII
  | ReticularThalamicNeuron
  | SpikeFrequencyAdaptation
  | SpikeLatency
  | SpinyProjection
  | SubthresholdOscillation
  | ThalamicInterneuron
  | Thalamocortical
  | ThalamocorticalBursting
  | ThalamocorticalSpiking
  | ThresholdVariability
  | TonicBursting
  | TonicSpiking
  deriving DecidableEq, Repr

/-- `NeuriteExt` from src/neural.rs: the extended-model parameters. -/
structure NeuriteExt where
  /-- Positive scalar value. -/
  k : ℚ
  /-- Conductance of child compartment(s). -/
  gcc : ℚ
  /-- Conductance of parent compartment. -/
  gpc : ℚ
  /-- Resting membrane potential. -/
  vr : ℚ
  /-- Instantaneous threshold potential. -/
  vt : ℚ
  /-- Spike peak membrane potential. -/
  vp : ℚ
  /-- Membrane capacitance. -/
  cap : ℚ
  deriving DecidableEq, Repr

/-- `Neurite` from src/neural.rs.  The Rust struct owns `Rc` children and a
non-owning `Rc` parent back-reference; the embedding uses value semantics,
so `child` is a list of neurite values and `parent` an optional neurite
value.  `syn` keeps only opaque synapse identifiers. -/
inductive Neurite where
  | mk
      (id : ℕ)
      (neurite_type : NeuriteType)
      (spike_model : SpikeModel)
      (a : ℚ) (b : ℚ) (c : ℚ) (d : ℚ)
      (u : ℚ) (v : ℚ) (vcc : ℚ) (vpc : ℚ) (y : ℚ)
      (ext : Option NeuriteExt)
      (syn : List ℕ)
      (parent : Option Neurite)
      (child : List Neurite)

namespace Neurite

/-- The neurite ID value. -/
def id : Neurite → ℕ
  | .mk i _ _ _ _ _ _ _ _ _ _ _ _ _ _ _ => i

/-- The neurite type. -/
def neurite_type : Neurite → NeuriteType
  | .mk _ t _ _ _ _ _ _ _ _ _ _ _ _ _ _ => t

/-- The spike model. -/
def spike_model : Neurite → SpikeModel
  | .mk _ _ m _ _ _ _ _ _ _ _ _ _ _ _ _ => m

/-- Timescale for recovery variable u. -/
def a : Neurite → ℚ
  | .mk _ _ _ a _ _ _ _ _ _ _ _ _ _ _ _ => a

/-- Sensitivity of recovery variable u to sub-threshold oscillations. -/
def b : Neurite → ℚ
  | .mk _ _ _ _ b _ _ _ _ _ _ _ _ _ _ _ => b

/-- After-spike reset value of the membrane potential v. -/
def c : Neurite → ℚ
  | .mk _ _ _ _ _ c _ _ _ _ _ _ _ _ _ _ => c

/-- After-spike reset value of recovery variable u. -/
def d : Neurite → ℚ
  | .mk _ _ _ _ _ _ d _ _ _ _ _ _ _ _ _ => d

/-- Membrane potential recovery variable. -/
def u : Neurite → ℚ
  | .mk _ _ _ _ _ _ _ u _ _ _ _ _ _ _ _ => u

/-- Membrane potential/voltage. -/
def v : Neurite → ℚ
  | .mk _ _ _ _ _ _ _ _ v _ _ _ _ _ _ _ => v

/-- Total membrane potential of child compartment(s). -/
def vcc : Neurite → ℚ
  | .mk _ _ _ _ _ _ _ _ _ vcc _ _ _ _ _ _ => vcc

/-- Membrane potential of parent compartment. -/
def vpc : Neurite → ℚ
  | .mk _ _ _ _ _ _ _ _ _ _ vpc _ _ _ _ _ => vpc

/-- Spike output. -/
def y : Neurite → ℚ
  | .mk _ _ _ _ _ _ _ _ _ _ _ y _ _ _ _ => y

/-- Neurite's extended variables. -/
def ext : Neurite → Option NeuriteExt
  | .mk _ _ _ _ _ _ _ _ _ _ _ _ e _ _ _ => e

/-- Neurite's synapses (opaque identifiers). -/
def syn : Neurite → List ℕ
  | .mk _ _ _ _ _ _ _ _ _ _ _ _ _ s _ _ => s

/-- Parent neurite. -/
def parent : Neurite → Option Neurite
  | .mk _ _ _ _ _ _ _ _ _ _ _ _ _ _ p _ => p

/-- Neurite's children. -/
def child : Neurite → List Neurite
  | .mk _ _ _ _ _ _ _ _ _ _ _ _ _ _ _ c => c

/-- Helper shared by all arms of `Neurite::new`: every arm builds the
struct with `vcc = vpc = y = 0`, empty synapse/child lists and no parent,
and differs only in `(a, b, c, d, u, v, ext)`. -/
def mkNew (i : ℕ) (t : NeuriteType) (m : SpikeModel)
    (a b c d u v : ℚ) (ext : Option NeuriteExt) : Neurite :=
  .mk i t m a b c d u v 0 0 0 ext [] none []

/-- `Neurite::new(neurite_type, spike_model)` (the fresh `NeuriteID` is the
explicit argument `i`).  Every numeric constant is transcribed from the
`new` match in src/neural.rs. -/
def new (i : ℕ) (t : NeuriteType) (m : SpikeModel) : Neurite :=
  match m with
  | .Accommodation => mkNew i t m 0.02 1 (-55) 4 (-16) (-65) none
  | .Bistability => mkNew i t m 0.1 0.26 (-60) 0 (-15.86) (-61) none
  | .ChatteringI | .TonicBursting => mkNew i t m 0.02 0.2 (-50) 2 (-14) (-70) none
  | .ChatteringII =>
      mkNew i t m 0.03 1 (-40) 150 0 (-60)
        (some { k := 1.5, gcc := 0, gpc := 0, vr := -60, vt := -40, vp := 25, cap := 50 })
  | .ClassI | .Integrator => mkNew i t m 0.02 (-0.1) (-55) 6 6 (-60) none
  | .ClassII => mkNew i t m 0.2 0.26 (-65) 0 (-16.64) (-64) none
  | .DepolarizingAfterPotential => mkNew i t m 1 0.2 (-60) (-21) (-14) (-70) none
  | .EntorhinalStellate =>
      mkNew i t m 0.01 15 (-50) 0 0 (-60)
        (some { k := 0.75, gcc := 1, gpc := 1, vr := -60, vt := -45, vp := 30, cap := 200 })
  | .FastSpiking => mkNew i t m 0.1 0.2 (-65) 2 (-14) (-70) none
  | .FastSpikingBasket =>
      mkNew i t m 0.2 0 (-55) 0 0 (-55)
        (some { k := 1, gcc := 0.5, gpc := 1, vr := -55, vt := -40, vp := 25, cap := 20 })
  | .HippocampalCA1PyramidalHighThresholdBursting =>
      mkNew i t m 0.02 0.5 (-45) 50 0 (-60)
        (some { k := 1, gcc := 1, gpc := 1, vr := -60, vt := -45, vp := 40, cap := 50 })
  | .HippocampalCA1PyramidalLowThresholdBurstingI =>
      mkNew i t m 0.02 0.5 (-40) 55 0 (-60)
        (some { k := 1, gcc := 1, gpc := 1, vr := -60, vt := -45, vp := 40, cap := 50 })
  | .HippocampalCA1PyramidalLowThresholdBurstingII =>
      mkNew i t m 0.02 0.5 (-35) 60 0 (-60)
        (some { k := 1, gcc := 1, gpc := 1, vr := -60, vt := -45, vp := 40, cap := 50 })
  | .HippocampalCA1PyramidalNonBursting =>
      mkNew i t m 0.02 0.5 (-50) 50 0 (-60)
        (some { k := 1, gcc := 1, gpc := 1, vr := -60, vt := -45, vp := 40, cap := 50 })
  | .InhibitionInducedBursting => mkNew i t m 0.026 (-1) (-45) (-2) 63.8 (-63.8) none
  | .InhibitionInducedSpiking => mkNew i t m 0.02 (-1) (-60) 8 63.8 (-63.8) none
  | .IntrinsicallyBurstingPyramidal =>
      mkNew i t m 0.01 5 (-56) 130 0 (-75)
        (some { k := 1.2, gcc := 1, gpc := 1, vr := -75, vt := -45, vp := 50, cap := 150 })
  | .IntrinsicallyBurstingPyramidalDendriteI =>
      mkNew i t m 3 15 (-20) 500 0 (-50)
        (some { k := 1, gcc := 1, gpc := 1, vr := -50, vt := -50, vp := 20, cap := 30 })
  | .IntrinsicallyBurstingPyramidalDendriteII =>
      mkNew i t m 0.01 5 (-35) 1000 0 (-60)
        (some { k := 3, gcc := 0.007, gpc := 0.007, vr := -60, vt := -50, vp := 10, cap := 100 })
  | .IntrinsicallyBurstingPyramidalSomaI =>
      mkNew i t m 0.01 5 (-52) 240 0 (-70)
        (some { k := 3, gcc := 1, gpc := 1, vr := -70, vt := -45, vp := 50, cap := 150 })
  | .IntrinsicallyBurstingPyramidalSomaII =>
      mkNew i t m 0.01 5 (-55) 500 0 (-60)
        (some { k := 3, gcc := 0.007, gpc := 0.007, vr := -60, vt := -50, vp := 50, cap := 100 })
  | .LatentSpikingNonBasket =>
      mkNew i t m 0.17 5 (-45) 20 0 (-53)
        (some { k := 0.3, gcc := 0.6, gpc := 2.5, vr := -66, vt := -40, vp := 30, cap := 20 })
  | .LatentSpikingNonBasketDendrite =>
      mkNew i t m 0.17 5 (-45) 20 0 (-53)
        (some { k := 0.3, gcc := 0.6, gpc := 2.5, vr := -66, vt := -40, vp := 100, cap := 20 })
  | .LowThresholdSpiking => mkNew i t m 0.02 0.25 (-65) 2 (-15.75) (-63) none
  | .LowThresholdSpikingNonBasket =>
      mkNew i t m 0.03 8 (-53) 20 0 (-53)
        (some { k := 3, gcc := 1, gpc := 1, vr := -56, vt := -42, vp := 40, cap := 100 })
  | .MixedMode => mkNew i t m 0.02 0.2 (-55) 4 (-14) (-70) none
  | .PhasicBursting => mkNew i t m 0.02 0.25 (-55) 0.05 (-16) (-64) none
  | .PhasicSpiking => mkNew i t m 0.02 0.25 (-65) 6 (-16) (-64) none
  | .ReboundBurst => mkNew i t m 0.03 0.25 (-52) 0 (-16) (-64) none
  | .ReboundSpike | .ThresholdVariability => mkNew i t m 0.03 0.25 (-60) 4 (-16) (-64) none
  | .RegularSpiking => mkNew i t m 0.02 0.2 (-65) 8 (-12.6) (-63) none
  | .RegularSpikingPyramidalI =>
      mkNew i t m 0.03 (-2) (-50) 100 0 (-60)
        (some { k := 0.7, gcc := 1, gpc := 1, vr := -60, vt := -40, vp := 35, cap := 100 })
  | .RegularSpikingPyramidalII | .RegularSpikingSpinyStellate =>
      mkNew i t m 0.01 5 (-60) 400 0 (-60)
        (some { k := 3, gcc := 3, gpc := 5, vr := -60, vt := -50, vp := 50, cap := 100 })
  | .RegularSpikingPyramidalL2L3Dendrite =>
      mkNew i t m 0.01 5 (-55) 400 0 (-60)
        (some { k := 3, gcc := 3, gpc := 5, vr := -60, vt := -50, vp := 30, cap := 100 })
  | .RegularSpikingPyramidalL4Dendrite =>
      mkNew i t m 0.01 5 (-50) 400 0 (-60)
        (some { k := 3, gcc := 3, gpc := 5, vr := -60, vt := -50, vp := 50, cap := 100 })
  | .RegularSpikingPyramidalL5L6Dendrite | .RegularSpikingSpinyStellateDendrite =>
      mkNew i t m 0.01 5 (-50) 400 0 (-60)
        (some { k := 3, gcc := 3, gpc := 5, vr := -60, vt := -50, vp := 30, cap := 100 })
  | .ResonatorI => mkNew i t m 0.1 0.26 (-65) 2 (-18.2) (-70) none
  | .ResonatorII => mkNew i t m 0.1 0.26 (-60) (-1) (-16.12) (-62) none
  | .ReticularThalamicNeuron =>
      mkNew i t m 0.015 10 (-55) 50 0 0
        (some { k := 0.25, gcc := 5, gpc := 5, vr := -65, vt := -45, vp := 0, cap := 40 })
  | .SpikeFrequencyAdaptation => mkNew i t m 0.01 0.2 (-65) 8 (-14) (-70) none
  | .SpikeLatency | .TonicSpiking => mkNew i t m 0.02 0.2 (-65) 6 (-14) (-70) none
  | .SpinyProjection =>
      mkNew i t m 0.01 (-20) (-55) 150 0 (-80)
        (some { k := 1, gcc := 1, gpc := 1, vr := -80, vt := -25, vp := 40, cap := 50 })
  | .SubthresholdOscillation => mkNew i t m 0.05 0.26 (-60) 0 (-16.12) (-62) none
  | .ThalamicInterneuron =>
      mkNew i t m 0.05 7 (-65) 50 0 (-60)
        (some { k := 0.5, gcc := 5, gpc := 5, vr := -60, vt := -50, vp := 20, cap := 20 })
  | .Thalamocortical =>
      mkNew i t m 0.1 15 (-60) 10 0 (-60)
        (some { k := 1.6, gcc := 2, gpc := 2, vr := -60, vt := -50, vp := 40, cap := 200 })
  | .ThalamocorticalSpiking => mkNew i t m 0.02 0.25 (-65) 0.05 (-15.75) (-63) none
  | .ThalamocorticalBursting => mkNew i t m 0.02 0.25 (-65) 0.05 (-21.75) (-87) none

/-- Helper shared by all arms of `Neurite::set_spike_model`: every arm
assigns `spike_model, a, b, c, d, u, v, y, ext` (with `y = 0`) and leaves
`id, neurite_type, vcc, vpc, syn, parent, child` untouched. -/
def setModelFields (n : Neurite) (m : SpikeModel)
    (a b c d u v : ℚ) (ext : Option NeuriteExt) : Neurite :=
  match n with
  | .mk i t _ _ _ _ _ _ _ vcc vpc _ _ syn par ch =>
      .mk i t m a b c d u v vcc vpc 0 ext syn par ch

/-- `Neurite::set_spike_model(spike_model)`.  Every numeric constant is
transcribed from the `set_spike_model` match in src/neural.rs (note that a
few of them differ from the constants in `new`). -/
def set_spike_model (n : Neurite) (m : SpikeModel) : Neurite :=
  match m with
  | .Accommodation => setModelFields n m 0.02 1 (-55) 4 (-16) (-65) none
  | .Bistability => setModelFields n m 0.1 0.26 (-60) 0 (-15.86) (-61) none
  | .ChatteringI => setModelFields n m 0.02 0.2 (-50) 2 (-14) (-70) none
  | .ChatteringII =>
      setModelFields n m 0.03 1 (-40) 150 0 (-60)
        (some { k := 1.5, gcc := 0, gpc := 0, vr := -60, vt := -40, vp := 25, cap := 50 })
  | .ClassI => setModelFields n m 0.02 0.1 (-55) 6 6 (-60) none
  | .ClassII => setModelFields n m 0.2 0.26 (-65) 0 (-16.64) (-64) none
  | .DepolarizingAfterPotential => setModelFields n m 1 0.2 (-60) (-21) (-14) (-70) none
  | .EntorhinalStellate =>
      setModelFields n m 0.01 15 (-50) 0 0 (-60)
        (some { k := 0.75, gcc := 1, gpc := 1, vr := -60, vt := -45, vp := 30, cap := 200 })
  | .FastSpiking => setModelFields n m 0.1 0.2 (-65) 2 (-14) (-70) none
  | .FastSpikingBasket =>
      setModelFields n m 0.2 0 (-55) 0 0 (-55)
        (some { k := 1, gcc := 0.5, gpc := 1, vr := -55, vt := -40, vp := 25, cap := 20 })
  | .HippocampalCA1PyramidalHighThresholdBursting =>
      setModelFields n m 0.02 0.5 (-45) 50 0 (-60)
        (some { k := 1, gcc := 1, gpc := 1, vr := -60, vt := -45, vp := 40, cap := 50 })
  | .HippocampalCA1PyramidalLowThresholdBurstingI =>
      setModelFields n m 0.02 0.5 (-40) 55 0 (-60)
        (some { k := 1, gcc := 1, gpc := 1, vr := -60, vt := -45, vp := 40, cap := 50 })
  | .HippocampalCA1PyramidalLowThresholdBurstingII =>
      setModelFields n m 0.02 0.5 (-35) 60 0 (-60)
        (some { k := 1, gcc := 1, gpc := 1, vr := -60, vt := -45, vp := 40, cap := 50 })
  | .HippocampalCA1PyramidalNonBursting =>
      setModelFields n m 0.02 0.5 (-50) 50 0 (-60)
        (some { k := 1, gcc := 1, gpc := 1, vr := -60, vt := -45, vp := 40, cap := 50 })
  | .InhibitionInducedBursting => setModelFields n m 0.026 (-1) (-45) (-2) 63.8 (-63.8) none
  | .InhibitionInducedSpiking => setModelFields n m 0.02 (-1) (-60) 8 63.8 (-63.8) none
  | .Integrator => setModelFields n m 0.02 (-0.1) (-55) 6 6 (-60) none
  | .IntrinsicallyBurstingPyramidal =>
      setModelFields n m 0.01 5 (-56) 130 0 (-75)
        (some { k := 1.2, gcc := 1, gpc := 1, vr := -75, vt := -45, vp := 50, cap := 150 })
  | .IntrinsicallyBurstingPyramidalDendriteI =>
      setModelFields n m 3 15 (-20) 500 0 (-50)
        (some { k := 1, gcc := 1, gpc := 1, vr := -50, vt := -50, vp := 20, cap := 30 })
  | .IntrinsicallyBurstingPyramidalDendriteII =>
      setModelFields n m 0.01 5 (-35) 1000 0 (-60)
        (some { k := 3, gcc := 0.7, gpc := 0.7, vr := -60, vt := -50, vp := 10, cap := 100 })
  | .IntrinsicallyBurstingPyramidalSomaI =>
      setModelFields n m 0.01 5 (-52) 240 0 (-70)
        (some { k := 3, gcc := 1, gpc := 1, vr := -70, vt := -45, vp := 50, cap := 150 })
  | .IntrinsicallyBurstingPyramidalSomaII =>
      setModelFields n m 0.01 5 (-55) 500 0 (-60)
        (some { k := 3, gcc := 0.7, gpc := 0.7, vr := -60, vt := -50, vp := 50, cap := 100 })
  | .LatentSpikingNonBasket =>
      setModelFields n m 0.17 5 (-45) 20 0 (-53)
        (some { k := 0.3, gcc := 0.6, gpc := 2.5, vr := -66, vt := -40, vp := 30, cap := 20 })
  | .LatentSpikingNonBasketDendrite =>
      setModelFields n m 0.17 5 (-45) 20 0 (-53)
        (some { k := 0.3, gcc := 0.6, gpc := 2.5, vr := -66, vt := -40, vp := 100, cap := 20 })
  | .LowThresholdSpiking => setModelFields n m 0.02 0.25 (-65) 2 (-15.75) (-63) none
  | .LowThresholdSpikingNonBasket =>
      setModelFields n m 0.03 8 (-53) 20 0 (-53)
        (some { k := 3, gcc := 1, gpc := 1, vr := -56, vt := -42, vp := 40, cap := 100 })
  | .MixedMode => setModelFields n m 0.02 0.2 (-55) 4 (-14) (-70) none
  | .PhasicBursting => setModelFields n m 0.02 0.25 (-55) 0.05 (-16) (-64) none
  | .PhasicSpiking => setModelFields n m 0.02 0.25 (-65) 6 (-16) (-64) none
  | .ReboundBurst => setModelFields n m 0.03 0.25 (-52) 0 (-16) (-64) none
  | .ReboundSpike => setModelFields n m 0.03 0.25 (-60) 4 (-16) (-64) none
  | .RegularSpiking => setModelFields n m 0.02 0.2 (-65) 8 (-12.6) (-63) none
  | .RegularSpikingPyramidalI =>
      setModelFields n m 0.03 (-2) (-50) 100 0 (-60)
        (some { k := 0.7, gcc := 1, gpc := 1, vr := -60, vt := -40, vp := 35, cap := 100 })
  | .RegularSpikingPyramidalII | .RegularSpikingSpinyStellate =>
      setModelFields n m 0.01 5 (-60) 400 0 (-60)
        (some { k := 3, gcc := 3, gpc := 5, vr := -60, vt := -50, vp := 50, cap := 100 })
  | .RegularSpikingPyramidalL2L3Dendrite =>
      setModelFields n m 0.01 5 (-55) 400 0 (-60)
        (some { k := 3, gcc := 3, gpc := 5, vr := -60, vt := -50, vp := 30, cap := 100 })
  | .RegularSpikingPyramidalL4Dendrite =>
      setModelFields n m 0.01 5 (-50) 400 0 (-60)
        (some { k := 3, gcc := 3, gpc := 5, vr := -60, vt := -50, vp := 50, cap := 100 })
  | .RegularSpikingPyramidalL5L6Dendrite | .RegularSpikingSpinyStellateDendrite =>
      setModelFields n m 0.01 5 (-50) 400 0 (-60)
        (some { k := 3, gcc := 3, gpc := 5, vr := -60, vt := -50, vp := 30, cap := 100 })
  | .ResonatorI => setModelFields n m 0.1 0.26 (-65) 2 (-18.2) (-70) none
  | .ResonatorII => setModelFields n m 0.1 0.26 (-60) (-1) (-16.12) (-62) none
  | .ReticularThalamicNeuron =>
      setModelFields n m 0.015 10 (-55) 50 0 0
        (some { k := 0.25, gcc := 5, gpc := 5, vr := -65, vt := -45, vp := 0, cap := 40 })
  | .SpikeFrequencyAdaptation => setModelFields n m 0.01 0.2 (-65) 8 (-14) (-70) none
  | .SpikeLatency => setModelFields n m 0.02 0.2 (-65) 6 (-14) (-70) none
  | .SpinyProjection =>
      setModelFields n m 0.01 (-20) (-55) 150 0 (-80)
        (some { k := 1, gcc := 1, gpc := 1, vr := -80, vt := -25, vp := 40, cap := 50 })
  | .SubthresholdOscillation => setModelFields n m 0.05 0.26 (-60) 0 (-16.12) (-62) none
  | .ThalamicInterneuron =>
      setModelFields n m 0.05 7 (-65) 50 0 (-60)
        (some { k := 0.5, gcc := 5, gpc := 5, vr := -60, vt := -50, vp := 20, cap := 20 })
  | .Thalamocortical =>
      setModelFields n m 0.1 15 (-60) 10 0 (-60)
        (some { k := 1.6, gcc := 2, gpc := 2, vr := -60, vt := -50, vp := 40, cap := 200 })
  | .ThalamocorticalBursting => setModelFields n m 0.02 0.25 (-65) 0.05 (-21.75) (-87) none
  | .ThalamocorticalSpiking => setModelFields n m 0.02 0.25 (-65) 0.05 (-15.75) (-63) none
  | .ThresholdVariability => setModelFields n m 0.03 0.25 (-60) 4 (-16) (-64) none
  | .TonicBursting => setModelFields n m 0.02 0.2 (-50) 2 (-14) (-70) none
  | .TonicSpiking => setModelFields n m 0.02 0.2 (-65) 6 (-14) (-70) none

/-- Helper shared by all arms of `Neurite::reset`: assigns `u`, `v` and
`y = 0`, leaving every other field untouched. -/
def resetFields (n : Neurite) (u v : ℚ) : Neurite :=
  match n with
  | .mk i t m a b c d _ _ vcc vpc _ ext syn par ch =>
      .mk i t m a b c d u v vcc vpc 0 ext syn par ch

/-- `Neurite::reset()`.  The `(u, v)` constants of each arm are transcribed
from the `reset` match in src/neural.rs (its arm grouping is kept). -/
def reset (n : Neurite) : Neurite :=
  match n.spike_model with
  | .Accommodation => resetFields n (-16) (-65)
  | .Bistability => resetFields n (-15.86) (-61)
  | .ChatteringI | .DepolarizingAfterPotential | .FastSpiking | .MixedMode
  | .SpikeFrequencyAdaptation | .SpikeLatency | .TonicBursting | .TonicSpiking =>
      resetFields n (-14) (-70)
  | .ChatteringII | .EntorhinalStellate | .HippocampalCA1PyramidalHighThresholdBursting
  | .HippocampalCA1PyramidalLowThresholdBurstingI | .HippocampalCA1PyramidalLowThresholdBurstingII
  | .HippocampalCA1PyramidalNonBursting | .IntrinsicallyBurstingPyramidalDendriteII
  | .IntrinsicallyBurstingPyramidalSomaII | .RegularSpikingPyramidalI
  | .RegularSpikingPyramidalII | .RegularSpikingPyramidalL2L3Dendrite
  | .RegularSpikingPyramidalL4Dendrite | .RegularSpikingPyramidalL5L6Dendrite
  | .RegularSpikingSpinyStellate | .RegularSpikingSpinyStellateDendrite
  | .ThalamicInterneuron | .Thalamocortical =>
      resetFields n 0 (-60)
  | .ClassI | .Integrator => resetFields n 6 (-60)
  | .ClassII => resetFields n (-16.64) (-64)
  | .FastSpikingBasket => resetFields n 0 (-55)
  | .InhibitionInducedBursting | .InhibitionInducedSpiking => resetFields n 63.8 (-63.8)
  | .IntrinsicallyBurstingPyramidal => resetFields n 0 (-75)
  | .IntrinsicallyBurstingPyramidalDendriteI => resetFields n 0 (-50)
  | .IntrinsicallyBurstingPyramidalSomaI => resetFields n 0 (-70)
  | .LatentSpikingNonBasket | .LatentSpikingNonBasketDendrite
  | .LowThresholdSpikingNonBasket => resetFields n 0 (-53)
  | .LowThresholdSpiking => resetFields n (-15.75) (-63)
  | .PhasicBursting | .PhasicSpiking | .ReboundBurst | .ReboundSpike
  | .ThresholdVariability => resetFields n (-16) (-64)
  | .RegularSpiking => resetFields n (-12.6) (-63)
  | .ResonatorI => resetFields n (-18.2) (-70)
  | .ResonatorII | .SubthresholdOscillation => resetFields n (-16.12) (-62)
  | .ReticularThalamicNeuron => resetFields n 0 0
  | .SpinyProjection => resetFields n 0 (-80)
  | .ThalamocorticalBursting => resetFields n (-15.75) (-63)
  | .ThalamocorticalSpiking => resetFields n (-21.75) (-87)

/-- `Neurite::process(time)`: returns the `(reported_voltage, spike_output)`
pair and the updated neurite state.  Transcribed arm by arm from
src/neural.rs, including the in-place updates of `b` performed by the
`ReticularThalamicNeuron` and `Thalamocortical` arms. -/
def process (n : Neurite) (time : ℚ) : (ℚ × ℚ) × Neurite :=
  match n with
  | .mk i t m a b c d u v vcc vpc _ extv syn par ch =>
    match extv with
    | some e =>
      let v1 :=
        match m with
        | .IntrinsicallyBurstingPyramidalDendriteI =>
            v + time * (e.k * (v - e.vr) * (v - e.vt) - e.vp * (vpc - v) - u + vcc) / e.cap
        | .IntrinsicallyBurstingPyramidalSomaI =>
            v + time * (e.k * (v - e.vr) * (v - e.vt) - e.vp * (vcc - v) - u + vpc) / e.cap
        | _ =>
            v + time * (e.k * (v - e.vr) * (v - e.vt) - u + vcc + vpc) / e.cap
      match m with
      | .EntorhinalStellate =>
          let u1 := u + time * a * (b * (v1 - e.vr) - u)
          if v1 > e.vp then
            ((e.vp, 1), .mk i t m a b c d u1 c vcc vpc 1 (some e) syn par ch)
          else
            ((v1, 0), .mk i t m a b c d u1 v1 vcc vpc 0 (some e) syn par ch)
      | .FastSpikingBasket =>
          let u1 :=
            if v1 < e.vr then u + time * a * (-u)
            else u + time * a * ((0.025 * (v1 - e.vr)) ^ 3 - u)
          if v1 > e.vp then
            ((e.vp, 1), .mk i t m a b c d u1 c vcc vpc 1 (some e) syn par ch)
          else
            ((v1, 0), .mk i t m a b c d u1 v1 vcc vpc 0 (some e) syn par ch)
      | .LowThresholdSpikingNonBasket =>
          let u1 := u + time * a * (b * (v1 - e.vr) - u)
          let peak := e.vp - 0.1 * u1
          if v1 ≥ peak then
            ((peak, 1), .mk i t m a b c d (min (u1 + d) 670) (c + 0.04 * u1) vcc vpc 1 (some e) syn par ch)
          else
            ((v1, 0), .mk i t m a b c d u1 v1 vcc vpc 0 (some e) syn par ch)
      | .ReticularThalamicNeuron =>
          let b1 := if v1 > -65 then (2 : ℚ) else 10
          let u1 := u + time * a * (b1 * (v1 - e.vr) - u)
          if v1 > e.vp then
            ((e.vp, 1), .mk i t m a b1 c d (u1 + d) c vcc vpc 1 (some e) syn par ch)
          else
            ((v1, 0), .mk i t m a b1 c d u1 v1 vcc vpc 0 (some e) syn par ch)
      | .ThalamicInterneuron =>
          let u1 := u + time * a * (b * (v1 - e.vr) - u)
          let peak := e.vp - 0.08 * u1
          if v1 ≥ peak then
            ((peak, 1), .mk i t m a b c d (min (u1 + d) 530) (c + 0.08 * u1) vcc vpc 1 (some e) syn par ch)
          else
            ((v1, 0), .mk i t m a b c d u1 v1 vcc vpc 0 (some e) syn par ch)
      | .Thalamocortical =>
          let b1 := if v1 > -65 then (0 : ℚ) else 15
          let u1 := u + time * a * (b1 * (v1 - e.vr) - u)
          let peak := e.vp + 0.1 * u1
          if v1 ≥ peak then
            ((peak, 1), .mk i t m a b1 c d (u1 + d) (c - 0.1 * u1) vcc vpc 1 (some e) syn par ch)
          else
            ((v1, 0), .mk i t m a b1 c d u1 v1 vcc vpc 0 (some e) syn par ch)
      | _ =>
          let u1 := u + time * a * (b * (v1 - e.vr) - u)
          if v1 > e.vp then
            ((e.vp, 1), .mk i t m a b c d (u1 + d) c vcc vpc 1 (some e) syn par ch)
          else
            ((v1, 0), .mk i t m a b c d u1 v1 vcc vpc 0 (some e) syn par ch)
    | none =>
      let v1 := v + time * (0.04 * v * v + 5 * v + 140 - u + vcc + vcc)
      let u1 := u + time * a * (b * v1 - u)
      if v1 ≥ 30 then
        ((30, 1), .mk i t m a b c d (u1 + d) c vcc vpc 1 none syn par ch)
      else
        ((v1, 0), .mk i t m a b c d u1 v1 vcc vpc 0 none syn par ch)

/-- `self.child.push(Rc::clone(&child))`. -/
def pushChild (n : Neurite) (c : Neurite) : Neurite :=
  match n with
  | .mk i t m a b c' d u v vcc vpc y ext syn par ch =>
      .mk i t m a b c' d u v vcc vpc y ext syn par (ch ++ [c])

/-- `self.parent = Some(parent)`. -/
def withParent (n : Neurite) (p : Option Neurite) : Neurite :=
  match n with
  | .mk i t m a b c d u v vcc vpc y ext syn _ ch =>
      .mk i t m a b c d u v vcc vpc y ext syn p ch

/-- `self.child.remove(index)`. -/
def eraseChild (n : Neurite) (index : ℕ) : Neurite :=
  match n with
  | .mk i t m a b c d u v vcc vpc y ext syn par ch =>
      .mk i t m a b c d u v vcc vpc y ext syn par (ch.eraseIdx index)

/-- `Neurite::add_child(child)`: on success returns the updated parent
(`self` with the child appended).  Every arm and error string is
transcribed from src/neural.rs. -/
def add_child (self : Neurite) (child : Neurite) : Except String Neurite :=
  match self.neurite_type with
  | .Soma =>
      match child.neurite_type with
      | .Soma => .error "Cannot add a soma neurite as a child of a soma neurite."
      | .BasalProximal => .ok (self.pushChild child)
      | .BasalDistal => .error "Cannot add a basal distal neurite as a child of a soma neurite."
      | .ApicalTrunk =>
          if self.child.any (fun c => c.neurite_type == NeuriteType.ApicalTrunk) then
            .error "Cannot have more than one apical trunk neurite as a child of a soma neurite."
          else
            .ok (self.pushChild child)
      | .ApicalTuft => .error "Cannot add an apical tuft neurite as a child of a soma neurite."
      | .Axon =>
          if self.child.any (fun c => c.neurite_type == NeuriteType.Axon) then
            .error "Cannot have more than one axon neurite as a child of a soma neurite."
          else
            .ok (self.pushChild child)
  | .BasalProximal =>
      match child.neurite_type with
      | .Soma => .error "Cannot add a soma neurite as a child of a basal proximal neurite."
      | .BasalProximal => .ok (self.pushChild child)
      | .BasalDistal => .ok (self.pushChild child)
      | .ApicalTrunk => .error "Cannot add an apical trunk neurite as a child of a basal proximal neurite."
      | .ApicalTuft => .error "Cannot add an apical tuft neurite as a child of a basal proximal neurite."
      | .Axon => .error "Cannot add an axon neurite as a child of a basal proximal neurite."
  | .BasalDistal =>
      match child.neurite_type with
      | .Soma => .error "Cannot add a soma neurite as a child of a basal distal neurite."
      | .BasalProximal => .error "Cannot add a basal proximal neurite as a child of a basal distal neurite."
      | .BasalDistal => .ok (self.pushChild child)
      | .ApicalTrunk => .error "Cannot add an apical trunk neurite as a child of a basal distal neurite."
      | .ApicalTuft => .error "Cannot add an apical tuft neurite as a child of a basal distal neurite."
      | .Axon => .error "Cannot add an axon neurite as a child of a basal distal neurite."
  | .ApicalTrunk =>
      match child.neurite_type with
      | .Soma => .error "Cannot add a soma neurite as a child of an apical trunk neurite."
      | .BasalProximal => .error "Cannot add a basal proximal neurite as a child of an apical trunk neurite."
      | .BasalDistal => .error "Cannot add a basal distal neurite as a child of an apical trunk neurite."
      | .ApicalTrunk => .ok (self.pushChild child)
      | .ApicalTuft => .ok (self.pushChild child)
      | .Axon => .error "Cannot add an axon neurite as a child of an apical trunk neurite."
  | .ApicalTuft =>
      match child.neurite_type with
      | .Soma => .error "Cannot add a soma neurite as a child of an apical tuft neurite."
      | .BasalProximal => .error "Cannot add a basal proximal neurite as a child of an apical tuft neurite."
      | .BasalDistal => .error "Cannot add a basal distal neurite as a child of an apical tuft neurite."
      | .ApicalTrunk => .error "Cannot add an apical trunk neurite as a child of an apical tuft neurite."
      | .ApicalTuft => .ok (self.pushChild child)
      | .Axon => .error "Cannot add an axon neurite as a child of an apical tuft neurite."
  | .Axon =>
      match child.neurite_type with
      | .Soma => .error "Cannot add a soma neurite as a child of an axon neurite."
      | .BasalProximal => .error "Cannot add a basal proximal neurite as a child of an axon neurite."
      | .BasalDistal => .error "Cannot add a basal distal neurite as a child of an axon neurite."
      | .ApicalTrunk => .error "Cannot add an apical trunk neurite as a child of an axon neurite."
      | .ApicalTuft => .error "Cannot add an apical tuft neurite as a child of an axon neurite."
      | .Axon => .ok (self.pushChild child)

/-- `Neurite::set_parent(parent)`: on success returns the updated `self`.
The guard of each non-Soma arm is transcribed verbatim from src/neural.rs:
`parent.neurite_type != A || parent.neurite_type != B` (note the `||`). -/
def set_parent (self : Neurite) (parent : Neurite) : Except String Neurite :=
  match self.neurite_type with
  | .Soma => .error "Soma neurite cannot have a parent neurite."
  | .BasalProximal =>
      if parent.neurite_type != NeuriteType.Soma || parent.neurite_type != NeuriteType.BasalProximal then
        .error "Basal proximal neurite must have a soma or basal proximal neurite parent."
      else
        .ok (self.withParent (some parent))
  | .BasalDistal =>
      if parent.neurite_type != NeuriteType.BasalDistal || parent.neurite_type != NeuriteType.BasalProximal then
        .error "Basal distal neurite must have a basal proximal or basal distal neurite parent."
      else
        .ok (self.withParent (some parent))
  | .ApicalTrunk =>
      if parent.neurite_type != NeuriteType.Soma || parent.neurite_type != NeuriteType.ApicalTrunk then
        .error "Apical trunk neurite must have a soma or apical trunk neurite parent."
      else
        .ok (self.withParent (some parent))
  | .ApicalTuft =>
      if parent.neurite_type != NeuriteType.ApicalTrunk || parent.neurite_type != NeuriteType.ApicalTuft then
        .error "Apical tuft neurite must have an apical trunk or apical tuft neurite parent."
      else
        .ok (self.withParent (some parent))
  | .Axon =>
      if parent.neurite_type != NeuriteType.Soma || parent.neurite_type != NeuriteType.Axon then
        .error "Axon neurite must have a soma or axon neurite parent."
      else
        .ok (self.withParent (some parent))

/-- `Neurite::remove_child(index)`.  Out of range returns `false`.  In range
with no grandchildren the child is removed and `true` returned.  In range
with at least one grandchild the source always panics on the first loop
iteration: the assignment's right operand evaluates
`self.child[index].borrow().clone().parent.unwrap()`, which panics when the
removed child's `parent` is `None`; when it is `Some`, the `Ref` temporary
from that `borrow()` is still live (temporaries drop at the end of the
statement) when the left operand evaluates
`self.child[index].clone().borrow_mut()` on the same `RefCell`, which
panics with a `BorrowMutError`.  Panics are modelled as `Except.error`. -/
def remove_child (self : Neurite) (index : ℕ) : Except String (Bool × Neurite) :=
  match self.child.get? index with
  | none => .ok (false, self)
  | some ci =>
      if ci.child.length = 0 then
        .ok (true, self.eraseChild index)
      else
        match ci.parent with
        | none => .error "panicked: called Option::unwrap on a None value"
        | some _ => .error "panicked: already borrowed: BorrowMutError"

/-- `Neurite::prune_child(index)`: removes the child (and with it the whole
owned subtree) when the index is in range; never panics. -/
def prune_child (self : Neurite) (index : ℕ) : Bool × Neurite :=
  if index ≥ self.child.length then
    (false, self)
  else
    (true, self.eraseChild index)

end Neurite

/-- The error message of an `Except` result, if any (used to state facts
about `Result::Err` values and modelled panics without needing decidable
equality of the success payload). -/
def errMsg {α : Type} : Except String α → Option String
  | .error m => some m
  | .ok _ => none

/-- The success payload of an `Except` result, if any. -/
def okVal {α : Type} : Except String α → Option α
  | .error _ => none
  | .ok a => some a

-- -------------------------------------------------------------------------
-- Claim theorems
-- -------------------------------------------------------------------------

/-- C8: `ShortTermPlasticity::learn(spike)` updates `f` and `d` as specified
(if `spike`: `f += p*(1-f)` then `d -= f*d` with the updated `f`; else
`f -= f/tf` and `d += (1-d)/td`), and the returned value — also stored in
`y` — is the newly updated `f` times the depression value `d` as it was
before this step's update. -/
theorem C8_learn_spec (s : ShortTermPlasticity) (spike : Bool) :
    (s.learn spike).2.f =
      (if spike then s.f + s.p * (1 - s.f) else s.f - s.f / s.tf) ∧
    (s.learn spike).2.d =
      (if spike then s.d - (s.f + s.p * (1 - s.f)) * s.d
       else s.d + (1 - s.d) / s.td) ∧
    (s.learn spike).1 = (s.learn spike).2.f * s.d ∧
    (s.learn spike).2.y = (s.learn spike).1 := by
  cases spike <;> simp [ShortTermPlasticity.learn]

/-- C10: an `ExcitatorySynapse` built by `new` starts with `x = 0` and
`w = 0`; since `process` adds `-x/tx` and then `x_max * stp.y * w`, the
conductance stays `0` through any sequence of `process` calls, whatever the
presynaptic activity, so `input()` always returns `0`. -/
theorem C10_new_input_zero (stp : ShortTermPlasticity) (tx x_max : ℚ)
    (spikes : List Bool) :
    (ExcitatorySynapse.new stp tx x_max).x = 0 ∧
    (ExcitatorySynapse.new stp tx x_max).w = 0 ∧
    ((ExcitatorySynapse.new stp tx x_max).processSeq spikes).input = 0 := by
  refine ⟨rfl, rfl, ?_⟩
  have key : ∀ (bs : List Bool) (syn : ExcitatorySynapse),
      syn.x = 0 → syn.w = 0 → (syn.processSeq bs).x = 0 ∧ (syn.processSeq bs).w = 0 := by
    intro bs
    induction bs with
    | nil => intro syn hx hw; exact ⟨hx, hw⟩
    | cons b bs ih =>
        intro syn hx hw
        apply ih
        · simp [ExcitatorySynapse.process, hx, hw]
        · simp [ExcitatorySynapse.process, hw]
  exact (key spikes _ rfl rfl).1

/-- C4: the claim says `ShuntingInhibitorySynapse::new` stores
`max (-2) (min 1 s)`.  The code computes `1.0.min(-2.0.max(s))`, which by
Rust precedence is `min 1 (-(max 2 s))`: for the in-range input `s = 0` the
stored scalar is `-2`, not `0`. -/
theorem C4_clamp_counterexample :
    (ShuntingInhibitorySynapse.new (ShortTermPlasticity.new 1 1 0) 0 1 1).s = -2 ∧
    max (-2 : ℚ) (min 1 0) = 0 := by
  constructor
  · rfl
  · norm_num

/-- C1: the claim says `set_spike_model(m)` leaves the neurite with exactly
the `(a,b,c,d,u,v,y,ext)` defaults that `Neurite::new(_, m)` assigns.  The
two preset tables disagree: for `ClassI`, `set_spike_model` stores
`b = 0.1` while `new` stores `b = -0.1`, and for
`IntrinsicallyBurstingPyramidalDendriteII` (likewise `…SomaII`),
`set_spike_model` stores `gcc = gpc = 0.7` while `new` stores
`gcc = gpc = 0.007`. -/
theorem C1_set_spike_model_differs_from_new :
    ((Neurite.new 0 .Soma .RegularSpiking).set_spike_model .ClassI).b = 0.1 ∧
    (Neurite.new 0 .Soma .ClassI).b = -0.1 ∧
    (((Neurite.new 0 .Soma .RegularSpiking).set_spike_model
        .IntrinsicallyBurstingPyramidalDendriteII).ext.map NeuriteExt.gcc) = some 0.7 ∧
    ((Neurite.new 0 .Soma .IntrinsicallyBurstingPyramidalDendriteII).ext.map
        NeuriteExt.gcc) = some 0.007 ∧
    (0.1 : ℚ) ≠ -0.1 ∧ (0.7 : ℚ) ≠ 0.007 := by
  refine ⟨rfl, rfl, rfl, rfl, by norm_num, by norm_num⟩

/-- C2: the claim says `reset()` restores `(u, v)` to the same preset
defaults that `Neurite::new` assigns for the current model.  The `reset`
match swaps the `ThalamocorticalBursting` and `ThalamocorticalSpiking`
arms: resetting a `ThalamocorticalBursting` neurite yields
`(u, v) = (-15.75, -63)` although its `new` defaults are
`(-21.75, -87)` (and symmetrically for `ThalamocorticalSpiking`). -/
theorem C2_reset_thalamocortical_swapped :
    ((Neurite.new 0 .Soma .ThalamocorticalBursting).reset).u = -15.75 ∧
    ((Neurite.new 0 .Soma .ThalamocorticalBursting).reset).v = -63 ∧
    (Neurite.new 0 .Soma .ThalamocorticalBursting).u = -21.75 ∧
    (Neurite.new 0 .Soma .ThalamocorticalBursting).v = -87 ∧
    (-15.75 : ℚ) ≠ -21.75 := by
  refine ⟨rfl, rfl, rfl, rfl, by norm_num⟩

/-- C3: the claim says `set_parent` succeeds exactly on the legal pairs of
the adjacency table, e.g. a `BasalProximal` child with a `Soma` parent.
Because every guard in `set_parent` is of the always-true form
`pt != A || pt != B`, the call fails even on that legal pair, while
`add_child` accepts the same pair. -/
theorem C3_set_parent_rejects_legal_pair :
    errMsg ((Neurite.new 1 .BasalProximal .RegularSpiking).set_parent
        (Neurite.new 0 .Soma .RegularSpiking)) =
      some "Basal proximal neurite must have a soma or basal proximal neurite parent." ∧
    errMsg ((Neurite.new 0 .Soma .RegularSpiking).add_child
        (Neurite.new 1 .BasalProximal .RegularSpiking)) = none := by
  exact ⟨rfl, rfl⟩

/-- C5: the claim says the tree mutators never panic, in particular that
`remove_child(i)` with an in-range `i` returns normally even when the
removed child has children and its parent reference is `None`.  On the tree
built by two legal `add_child` calls (which never set the child's `parent`
field, so it is `None`), `remove_child(0)` reaches
`self.child[index].borrow().clone().parent.unwrap()` and panics. -/
theorem C5_remove_child_panics :
    errMsg (do
      let bp ← (Neurite.new 1 .BasalProximal .RegularSpiking).add_child
                 (Neurite.new 2 .BasalProximal .RegularSpiking)
      let soma ← (Neurite.new 0 .Soma .RegularSpiking).add_child bp
      soma.remove_child 0) =
      some "panicked: called Option::unwrap on a None value" := rfl

/-- C7: the claim says an in-range `remove_child(i)` returns `true` and
re-parents the grandchildren.  On an apical-trunk chain with one grandchild
(grown by `add_child`, so the removed child's `parent` is `None`),
`remove_child(0)` instead panics, while `prune_child(0)` on the same tree
returns `true` and discards the grandchild with the subtree, and an
out-of-range index makes both return `false` leaving the tree unchanged. -/
theorem C7_remove_child_vs_prune_child :
    errMsg (do
      let trunk ← (Neurite.new 1 .ApicalTrunk .RegularSpiking).add_child
                    (Neurite.new 2 .ApicalTuft .RegularSpiking)
      let root ← (Neurite.new 0 .ApicalTrunk .RegularSpiking).add_child trunk
      root.remove_child 0) =
      some "panicked: called Option::unwrap on a None value" ∧
    ((okVal (do
      let trunk ← (Neurite.new 1 .ApicalTrunk .RegularSpiking).add_child
                    (Neurite.new 2 .ApicalTuft .RegularSpiking)
      let root ← (Neurite.new 0 .ApicalTrunk .RegularSpiking).add_child trunk
      pure root)).map
        (fun root => ((root.prune_child 0).1, (root.prune_child 0).2.child.length,
          (root.prune_child 7).1, (root.prune_child 7).2.child.length))) =
      some (true, 0, false, 1) := by
  exact ⟨rfl, rfl⟩

/-- C6: for a neurite with no extended parameters (`ext = None`),
`process(time)` integrates
`v += time * (0.04*v*v + 5*v + 140 - u + 2*vcc)` (the source sums `vcc`
twice instead of `vcc + vpc`), then `u += time * a * (b*v - u)` with the
updated `v`; if the new `v` is at least `30` it resets `v` to `c`, adds `d`
to `u`, sets `y = 1` and reports `(30, 1)`, otherwise it keeps the
integrated `v`, sets `y = 0` and reports `(v, 0)`. -/
theorem C6_process_simple (i : ℕ) (t : NeuriteType) (m : SpikeModel)
    (a b c d u v vcc vpc y : ℚ) (syn : List ℕ) (par : Option Neurite)
    (ch : List Neurite) (time : ℚ) :
    Neurite.process (.mk i t m a b c d u v vcc vpc y none syn par ch) time =
      (if v + time * (0.04 * v * v + 5 * v + 140 - u + 2 * vcc) ≥ 30 then
        ((30, 1), .mk i t m a b c d
          (u + time * a *
            (b * (v + time * (0.04 * v * v + 5 * v + 140 - u + 2 * vcc)) - u) + d)
          c vcc vpc 1 none syn par ch)
      else
        ((v + time * (0.04 * v * v + 5 * v + 140 - u + 2 * vcc), 0),
          .mk i t m a b c d
          (u + time * a *
            (b * (v + time * (0.04 * v * v + 5 * v + 140 - u + 2 * vcc)) - u))
          (v + time * (0.04 * v * v + 5 * v + 140 - u + 2 * vcc))
          vcc vpc 0 none syn par ch)) := by
  have h : v + time * (0.04 * v * v + 5 * v + 140 - u + vcc + vcc) =
      v + time * (0.04 * v * v + 5 * v + 140 - u + 2 * vcc) := by ring
  simp only [Neurite.process, h]

/-- Auxiliary: iterating `learn(false)` never changes `tf`. -/
theorem learnFalseIter_tf (s : ShortTermPlasticity) (n : ℕ) :
    (s.learnFalseIter n).tf = s.tf := by
  induction n with
  | zero => rfl
  | succ n ih => simp [ShortTermPlasticity.learnFalseIter, ShortTermPlasticity.learn, ih]

/-- Auxiliary: iterating `learn(false)` never changes `td`. -/
theorem learnFalseIter_td (s : ShortTermPlasticity) (n : ℕ) :
    (s.learnFalseIter n).td = s.td := by
  induction n with
  | zero => rfl
  | succ n ih => simp [ShortTermPlasticity.learnFalseIter, ShortTermPlasticity.learn, ih]

/-- Auxiliary closed form: after `n` calls of `learn(false)` the
facilitation value is `f * (1 - 1/tf)^n`. -/
theorem learnFalseIter_f (s : ShortTermPlasticity) (n : ℕ) :
    (s.learnFalseIter n).f = s.f * (1 - 1 / s.tf) ^ n := by
  induction n with
  | zero => simp [ShortTermPlasticity.learnFalseIter]
  | succ n ih =>
      simp only [ShortTermPlasticity.learnFalseIter, ShortTermPlasticity.learn,
        Bool.false_eq_true, if_false, learnFalseIter_tf, ih]
      ring

/-- Auxiliary closed form: after `n` calls of `learn(false)` the depression
value is `1 - (1 - d) * (1 - 1/td)^n`. -/
theorem learnFalseIter_d (s : ShortTermPlasticity) (n : ℕ) :
    (s.learnFalseIter n).d = 1 - (1 - s.d) * (1 - 1 / s.td) ^ n := by
  induction n with
  | zero => simp [ShortTermPlasticity.learnFalseIter]
  | succ n ih =>
      simp only [ShortTermPlasticity.learnFalseIter, ShortTermPlasticity.learn,
        Bool.false_eq_true, if_false, learnFalseIter_td, ih]
      ring

/-- C9 counterexample: the claim asserts the limits for every positive pair
of time constants, but for `tf = td = 1/4` (both `> 0`) the facilitation
iterates are `(-3)^n`, which do not tend to `0`. -/
theorem C9_counterexample :
    (0 : ℚ) < 1 / 4 ∧
    ¬ (Filter.Tendsto
        (fun n => (((ShortTermPlasticity.new (1/4) (1/4) 0).learnFalseIter n).f : ℝ))
        Filter.atTop (nhds 0) ∧
       Filter.Tendsto
        (fun n => (((ShortTermPlasticity.new (1/4) (1/4) 0).learnFalseIter n).d : ℝ))
        Filter.atTop (nhds 1)) := by
  refine ⟨by norm_num, ?_⟩
  rintro ⟨hf, -⟩
  have hval : (fun n => (((ShortTermPlasticity.new (1/4) (1/4) 0).learnFalseIter n).f : ℝ)) =
      fun n => ((-3 : ℝ)) ^ n := by
    funext n
    rw [learnFalseIter_f]
    norm_num [ShortTermPlasticity.new]
  rw [hval] at hf
  have habs : |(-3 : ℝ)| < 1 := tendsto_pow_atTop_nhds_zero_iff.mp hf
  norm_num at habs

/-- C9 (amended): for `tf > 1/2` and `td > 1/2`, iterating `learn(false)`
drives the facilitation value to `0` and the depression value to `1`. -/
theorem C9_learn_false_limits (s : ShortTermPlasticity)
    (htf : (1 : ℚ) / 2 < s.tf) (htd : (1 : ℚ) / 2 < s.td) :
    Filter.Tendsto (fun n => ((s.learnFalseIter n).f : ℝ)) Filter.atTop (nhds 0) ∧
    Filter.Tendsto (fun n => ((s.learnFalseIter n).d : ℝ)) Filter.atTop (nhds 1) := by
  have htf0 : (0 : ℚ) < s.tf := lt_trans (by norm_num) htf
  have htd0 : (0 : ℚ) < s.td := lt_trans (by norm_num) htd
  have hrf : |(1 : ℝ) - 1 / (s.tf : ℝ)| < 1 := by
    have h0 : (0 : ℝ) < (s.tf : ℝ) := by exact_mod_cast htf0
    have h2 : (1 : ℝ) < 2 * (s.tf : ℝ) := by
      have h2q : (1 : ℚ) < 2 * s.tf := by linarith
      exact_mod_cast h2q
    have hlt : (1 : ℝ) / (s.tf : ℝ) < 2 := by
      rw [div_lt_iff₀ h0]; linarith
    have hpos : (0 : ℝ) < 1 / (s.tf : ℝ) := by positivity
    rw [abs_lt]
    constructor <;> linarith
  have hrd : |(1 : ℝ) - 1 / (s.td : ℝ)| < 1 := by
    have h0 : (0 : ℝ) < (s.td : ℝ) := by exact_mod_cast htd0
    have h2 : (1 : ℝ) < 2 * (s.td : ℝ) := by
      have h2q : (1 : ℚ) < 2 * s.td := by linarith
      exact_mod_cast h2q
    have hlt : (1 : ℝ) / (s.td : ℝ) < 2 := by
      rw [div_lt_iff₀ h0]; linarith
    have hpos : (0 : ℝ) < 1 / (s.td : ℝ) := by positivity
    rw [abs_lt]
    constructor <;> linarith
  constructor
  · have hpow : Filter.Tendsto (fun n : ℕ => ((1 : ℝ) - 1 / (s.tf : ℝ)) ^ n)
        Filter.atTop (nhds 0) := tendsto_pow_atTop_nhds_zero_iff.mpr hrf
    have := hpow.const_mul (s.f : ℝ)
    rw [mul_zero] at this
    refine this.congr fun n => ?_
    rw [learnFalseIter_f]
    push_cast
    ring
  · have hpow : Filter.Tendsto (fun n : ℕ => ((1 : ℝ) - 1 / (s.td : ℝ)) ^ n)
        Filter.atTop (nhds 0) := tendsto_pow_atTop_nhds_zero_iff.mpr hrd
    have h2 := (hpow.const_mul ((1 : ℝ) - (s.d : ℝ))).const_sub 1
    rw [mul_zero, sub_zero] at h2
    refine h2.congr fun n => ?_
    rw [learnFalseIter_d]
    push_cast
    ring

/-- Witness for C9 at `tf = td = 1`. -/
theorem C9_learn_false_limits_witness :
    ((1 : ℚ) / 2 < (ShortTermPlasticity.new 1 1 0).tf ∧
     (1 : ℚ) / 2 < (ShortTermPlasticity.new 1 1 0).td) ∧
    (Filter.Tendsto
      (fun n => (((ShortTermPlasticity.new 1 1 0).learnFalseIter n).f : ℝ))
      Filter.atTop (nhds 0) ∧
     Filter.Tendsto
      (fun n => (((ShortTermPlasticity.new 1 1 0).learnFalseIter n).d : ℝ))
      Filter.atTop (nhds 1)) :=
  ⟨⟨by norm_num [ShortTermPlasticity.new], by norm_num [ShortTermPlasticity.new]⟩,
    C9_learn_false_limits _ (by norm_num [ShortTermPlasticity.new])
      (by norm_num [ShortTermPlasticity.new])⟩

end NeuronModeler
